import Mathlib

/-!
Verification of the interaction/selection/transform core of the projectile
simulation (`projectile/main.py`) against its natural-language specification.

The embedding below translates the relevant parts of `ProjectileMain` into
Lean definitions over exact rational arithmetic:

* `toPygame` / `fromPygame` model `pymunk.pygame_util.to_pygame` /
  `from_pygame` as the program runs them (pymunk 6, `positive_y_is_up = False`,
  so both coordinates are rounded with Python's banker's rounding and no axis
  flip is applied; the program never sets `positive_y_is_up`, and its gravity
  `(0, +900)` confirms the y-down convention).
* `screenToWorld` / `worldToScreen` are the pointer mappings of
  `mainloop` (`MOUSEBUTTONDOWN`, lines 306-312, and the selection-highlight
  drawing, lines 353-359).
* `hitLoop` / `mouseDown` embed the pointer-down hit test (lines 305-324).
* `mouseUpImpulse` / `mouseUpHandler` embed the launch-impulse computation of
  the `MOUSEBUTTONUP` branch (lines 327-342).
* `createOp` / `removeOp` embed `ProjectileMain.__create` (lines 194-216) and
  `ProjectileMain.__remove` (lines 218-233).
* `processEvent` / `processEvents` embed the per-event dispatch of the event
  loop (lines 292-342).

External collaborators (the pymunk engine's point queries, `Vec2d.angle`,
`cos`/`sin` used by `Vec2d.rotated`, the `Camera` class and the widget
toolkit, whose sources are outside this file's scope) enter as oracle
parameters, as the specification treats them as external boundaries.
-/

/-- A 2-d point/vector with exact rational coordinates. -/
abbrev V2 : Type := ℚ × ℚ

/-- Scalar multiplication of a 2-d vector, `k * v` componentwise
(Python: `scalar * Vec2d(...)`). -/
def smul2 (k : ℚ) (v : V2) : V2 := (k * v.1, k * v.2)

/-- Python's built-in `round`: round half to even (banker's rounding).
`pymunk.pygame_util.to_pygame` applies it to both coordinates. -/
def pyRound (q : ℚ) : ℤ :=
  if q - ⌊q⌋ < 1/2 then ⌊q⌋
  else if 1/2 < q - ⌊q⌋ then ⌊q⌋ + 1
  else if ⌊q⌋ % 2 = 0 then ⌊q⌋ else ⌊q⌋ + 1

/-- `pymunk.pygame_util.to_pygame(p, surface)` with the program's
configuration (`positive_y_is_up = False`, its default in pymunk 6 and never
changed by the program): both coordinates are rounded, no axis flip. -/
def toPygame (v : V2) : V2 := ((pyRound v.1 : ℚ), (pyRound v.2 : ℚ))

/-- `pymunk.pygame_util.from_pygame(p, surface)`, which pymunk defines as
`to_pygame(p, surface)`. -/
def fromPygame : V2 → V2 := toPygame

/-- The screen-to-world pointer mapping of `mainloop`
(lines 306-312): `from_pygame(np.subtract(mouse_pos, (x_offset, y_offset)))`.
`off` is the camera's `(x_offset, y_offset)`.  Note that the mapping uses only
the camera's pan offsets; the zoom factor and rotation of the camera never
enter it. -/
def screenToWorld (off p : V2) : V2 := fromPygame (p - off)

/-- The world-to-screen mapping of `mainloop` used for the selection
highlight (lines 353-359): `to_pygame(np.add(body.position, (x_offset,
y_offset)))`. -/
def worldToScreen (off w : V2) : V2 := toPygame (w + off)

theorem pyRound_intCast (n : ℤ) : pyRound (n : ℚ) = n := by
  simp [pyRound]

theorem toPygame_toPygame (v : V2) : toPygame (toPygame v) = toPygame v := by
  simp [toPygame, pyRound_intCast]

/-- `self.__impulse` (line 107). -/
def impulseConst : ℚ := -1000

/-- `Vec2d.rotated` expressed through the cosine and sine of the rotation
angle: `v.rotated(a) = (x cos a − y sin a, x sin a + y cos a)`, with `c`,`s`
standing for `cos a`, `sin a`. -/
def rotatedCS (v : V2) (c s : ℚ) : V2 := (v.1 * c - v.2 * s, v.1 * s + v.2 * c)

/-- The launch-impulse computation of the `MOUSEBUTTONUP` branch
(lines 329-342): `new_event_pos = from_pygame(event.pos - offsets)`, then
`point1 = body.position`, `point2 = from_pygame(new_event_pos)` (a second
application of `from_pygame`), and
`impulse = self.__impulse * (point1 - point2).rotated(-angle)`.
`c`,`s` are the cosine and sine of `-angle` (they come from the runtime's
floating-point `cos`/`sin`; at `angle = 0` they are exactly `1`, `0`). -/
def mouseUpImpulse (off eventPos bodyPos : V2) (c s : ℚ) : V2 :=
  let newEventPos : V2 := fromPygame (eventPos - off)
  let point1 : V2 := bodyPos
  let point2 : V2 := fromPygame newEventPos
  smul2 impulseConst (rotatedCS (point1 - point2) c s)

/-- The specification's impulse formula (spec section 4.4, stated in its own
words for comparison with the code): `impulse = impulseMagnitude *
rotateByNegativeAngle(bodyPosition − releaseWorldPoint)`, where the release
world point is `screenToWorld(releaseScreenPos)`. -/
def specImpulseFormula (bodyPos releaseWorld : V2) (c s : ℚ) : V2 :=
  smul2 impulseConst (rotatedCS (bodyPos - releaseWorld) c s)

theorem fromPygame_sub_int (a b : ℤ) :
    fromPygame ((a : ℚ), (b : ℚ)) = ((a : ℚ), (b : ℚ)) := by
  simp [fromPygame, toPygame, pyRound_intCast]

/-- C1 (amended): the pointer mappings ignore zoom and rotation entirely, and
for integer screen points and integer camera pan offsets the round trip
`worldToScreen(screenToWorld(p))` returns `p` exactly.  (For fractional pan
offsets the rounding inside the pymunk helpers can move the point by up to a
pixel; see the counterexample.) -/
theorem c1_roundtrip_integer (px py ox oy : ℤ) :
    worldToScreen ((ox : ℚ), (oy : ℚ))
        (screenToWorld ((ox : ℚ), (oy : ℚ)) ((px : ℚ), (py : ℚ)))
      = ((px : ℚ), (py : ℚ)) := by
  have h1 : ((px : ℚ), (py : ℚ)) - ((ox : ℚ), (oy : ℚ))
      = (((px - ox : ℤ) : ℚ), ((py - oy : ℤ) : ℚ)) := by
    rw [Prod.mk_sub_mk, Prod.mk.injEq]
    constructor <;> push_cast <;> ring
  have h2 : (((px - ox : ℤ) : ℚ), ((py - oy : ℤ) : ℚ)) + ((ox : ℚ), (oy : ℚ))
      = ((px : ℚ), (py : ℚ)) := by
    rw [Prod.mk_add_mk, Prod.mk.injEq]
    constructor <;> push_cast <;> ring
  unfold screenToWorld worldToScreen
  rw [h1, fromPygame_sub_int, h2]
  simp [toPygame, pyRound_intCast]

/-- C1 (counterexample): with camera pan offset `(1/2, 0)` — a valid camera
state per the specification's `CameraState` — the screen point `(1, 1)`
round-trips to `(0, 1)`: the absolute error is `1`, far above `1e-6`, so the
two pointer mappings are not inverse for every valid camera state. -/
theorem c1_roundtrip_counterexample :
    worldToScreen ((1 : ℚ)/2, 0) (screenToWorld ((1 : ℚ)/2, 0) (1, 1))
        = ((0 : ℚ), 1) ∧
    ¬ (|(worldToScreen ((1 : ℚ)/2, 0)
          (screenToWorld ((1 : ℚ)/2, 0) (1, 1))).1 - 1| ≤ 1/1000000) := by
  have h : worldToScreen ((1 : ℚ)/2, 0) (screenToWorld ((1 : ℚ)/2, 0) (1, 1))
      = ((0 : ℚ), 1) := by
    norm_num [worldToScreen, screenToWorld, fromPygame, toPygame, pyRound,
      Prod.ext_iff]
  refine ⟨h, ?_⟩
  rw [h]
  norm_num

/-- C2 (amended): at a drag release on a body at world `(0,0)` with
`angle = 0` and release point mapping to world `(-10, 0)` the applied impulse
is `(-10000, 0)` — a strictly NEGATIVE x-component (pulling left launches the
body leftward, toward the pull, per the negative `impulseMagnitude = -1000`
convention) and zero y-component; and in general the applied impulse equals
`impulseMagnitude * rotateByNegativeAngle(bodyPosition − releaseWorldPoint)`,
exactly the specification's formula. -/
theorem c2_impulse_formula :
    (mouseUpImpulse (20, 0) (10, 0) (0, 0) 1 0 = (-10000, 0) ∧
      (mouseUpImpulse (20, 0) (10, 0) (0, 0) 1 0).1 < 0 ∧
      screenToWorld (20, 0) (10, 0) = (-10, 0)) ∧
    (∀ off eventPos bodyPos : V2, ∀ c s : ℚ,
      mouseUpImpulse off eventPos bodyPos c s
        = specImpulseFormula bodyPos (screenToWorld off eventPos) c s) := by
  constructor
  · refine ⟨?_, ?_, ?_⟩
    · norm_num [mouseUpImpulse, fromPygame, toPygame, pyRound, smul2,
        rotatedCS, impulseConst, Prod.ext_iff]
    · norm_num [mouseUpImpulse, fromPygame, toPygame, pyRound, smul2,
        rotatedCS, impulseConst]
    · norm_num [screenToWorld, fromPygame, toPygame, pyRound, Prod.ext_iff]
  · intro off eventPos bodyPos c s
    simp only [mouseUpImpulse, specImpulseFormula, screenToWorld, fromPygame,
      toPygame_toPygame]

/-- C2 (counterexample): at the input named by the claim (body at `(0,0)`,
`angle = 0`, release point mapping to world `(-10, 0)`), the impulse
x-component is `-10000`, which is not positive — the claim's sign is wrong. -/
theorem c2_impulse_counterexample :
    (mouseUpImpulse (20, 0) (10, 0) (0, 0) 1 0).1 = -10000 ∧
    ¬ (0 < (mouseUpImpulse (20, 0) (10, 0) (0, 0) 1 0).1) ∧
    screenToWorld (20, 0) (10, 0) = (-10, 0) := by
  refine ⟨?_, ?_, ?_⟩
  · norm_num [mouseUpImpulse, fromPygame, toPygame, pyRound, smul2,
      rotatedCS, impulseConst]
  · norm_num [mouseUpImpulse, fromPygame, toPygame, pyRound, smul2,
      rotatedCS, impulseConst]
  · norm_num [screenToWorld, fromPygame, toPygame, pyRound, Prod.ext_iff]

/-- `pymunk.Body.body_type` as used by the program. -/
inductive BodyType
  | dynamic
  | static
deriving DecidableEq

/-- A body of the pymunk space as the hit test sees it: its `body_type`,
`position`, `angle`, and its single attached shape (`list(body.shapes)[0]`;
every body of this program carries exactly one shape, per the spec's
`SimBody` data model), identified by a handle. -/
structure MBody where
  shapeId : ℕ
  btype : BodyType
  position : V2
  angle : ℚ
deriving DecidableEq

/-- Error raised by a point query (the spec's "any error escaping a spatial
query"); the engine boundary may raise it. -/
inductive QErr
  | queryFailure
deriving DecidableEq

/-- The three instance fields the `MOUSEBUTTONDOWN` hit-test loop mutates:
`self.__during_query`, `self.__active_shape`, `self.__pulling`. -/
structure HitFlags where
  duringQuery : Bool
  activeShape : Option ℕ
  pulling : Bool
deriving DecidableEq

/-- The hit-test loop of `mainloop` (lines 314-324): for each body of the
space, if it is dynamic, set `__during_query := True`, run
`shape.point_query(pg_position)` (modelled by the oracle `q`, which may
raise), set `__during_query := False`, and if the signed distance is
negative, record the shape as `__active_shape`, set `__pulling := True` and
aim the body at the pointer (`body.angle = (pg_position - position).angle`,
with `angleOf` standing for the runtime's `Vec2d.angle`).  The loop has no
`break`, so a later match overwrites an earlier one.  A raised query error
aborts the loop; the returned flags are the object state at that moment
(Python attribute state survives the exception). -/
def hitLoop (q : ℕ → Except QErr ℚ) (angleOf : V2 → ℚ) (p : V2) :
    List MBody → HitFlags → HitFlags × List MBody × Option QErr
  | [], fl => (fl, [], none)
  | b :: rest, fl =>
    if b.btype = BodyType.dynamic then
      let fl1 : HitFlags := { fl with duringQuery := true }
      match q b.shapeId with
      | Except.error e => (fl1, b :: rest, some e)
      | Except.ok dist =>
        let fl2 : HitFlags := { fl1 with duringQuery := false }
        if dist < 0 then
          let fl3 : HitFlags :=
            { fl2 with activeShape := some b.shapeId, pulling := true }
          let b2 : MBody := { b with angle := angleOf (p - b.position) }
          let r := hitLoop q angleOf p rest fl3
          (r.1, b2 :: r.2.1, r.2.2)
        else
          let r := hitLoop q angleOf p rest fl2
          (r.1, b :: r.2.1, r.2.2)
    else
      let r := hitLoop q angleOf p rest fl
      (r.1, b :: r.2.1, r.2.2)

/-- The external boundaries the event handlers consult: the camera's pan
offsets, the engine's point query (per shape handle and world point), the
runtime's `Vec2d.angle`, the cosine/sine pair backing `Vec2d.rotated`, and
`pygame.mouse.get_pos()`. -/
structure Ctx where
  camOffset : V2
  query : ℕ → V2 → Except QErr ℚ
  angleOf : V2 → ℚ
  cosSin : ℚ → ℚ × ℚ
  mousePos : V2

/-- The instance state of `ProjectileMain` that the event-loop branches
read and write. -/
structure FrameState where
  activeShape : Option ℕ
  pulling : Bool
  duringQuery : Bool
  bodies : List MBody
  mPosition : V2
  entriesBusy : Bool
  appliedImpulses : List (ℕ × V2)
  nextShapeId : ℕ
deriving DecidableEq

/-- The `MOUSEBUTTONDOWN` branch of `mainloop` (lines 305-324): map the mouse
position through `from_pygame(mouse - camera_offsets)`, reset
`__active_shape = None`, then run the hit-test loop over the space's bodies.
Returns the updated state and the error of a raised point query, if any.
Note that the branch never consults the entries' busy status. -/
def mouseDown (ctx : Ctx) (mousePos : V2) (st : FrameState) :
    FrameState × Option QErr :=
  let p := fromPygame (mousePos - ctx.camOffset)
  let fl0 : HitFlags :=
    { duringQuery := st.duringQuery, activeShape := none, pulling := st.pulling }
  let r := hitLoop (fun sid => ctx.query sid p) ctx.angleOf p st.bodies fl0
  ({ st with activeShape := r.1.activeShape, pulling := r.1.pulling,
             duringQuery := r.1.duringQuery, bodies := r.2.1 }, r.2.2)

theorem hitLoop_active_source (q : ℕ → Except QErr ℚ) (angleOf : V2 → ℚ)
    (p : V2) (bodies : List MBody) :
    ∀ (fl : HitFlags) (sid : ℕ),
      (hitLoop q angleOf p bodies fl).1.activeShape = some sid →
      (∃ b ∈ bodies, b.shapeId = sid ∧ b.btype = BodyType.dynamic ∧
        ∃ d, q b.shapeId = Except.ok d ∧ d < 0) ∨
      fl.activeShape = some sid := by
  induction bodies with
  | nil => intro fl sid h; exact Or.inr h
  | cons b rest ih =>
    intro fl sid h
    rw [hitLoop] at h
    by_cases hb : b.btype = BodyType.dynamic
    · simp only [hb, if_true] at h
      cases hq : q b.shapeId with
      | error e =>
        rw [hq] at h
        simp only at h
        exact Or.inr h
      | ok dist =>
        rw [hq] at h
        simp only at h
        by_cases hd : dist < 0
        · simp only [hd, if_true] at h
          rcases ih _ _ h with hrest | hfl
          · rcases hrest with ⟨b2, hb2, hsid, hdyn, hneg⟩
            exact Or.inl ⟨b2, List.mem_cons_of_mem _ hb2, hsid, hdyn, hneg⟩
          · simp only at hfl
            rcases hfl with hfl
            have : b.shapeId = sid := Option.some.injEq _ _ ▸ hfl ▸ rfl
            exact Or.inl ⟨b, List.mem_cons_self _ _, by
              simpa using hfl, hb, ⟨dist, hq, hd⟩⟩
        · simp only [hd, if_false] at h
          rcases ih _ _ h with hrest | hfl
          · rcases hrest with ⟨b2, hb2, hsid, hdyn, hneg⟩
            exact Or.inl ⟨b2, List.mem_cons_of_mem _ hb2, hsid, hdyn, hneg⟩
          · exact Or.inr hfl
    · simp only [hb, if_false] at h
      rcases ih _ _ h with hrest | hfl
      · rcases hrest with ⟨b2, hb2, hsid, hdyn, hneg⟩
        exact Or.inl ⟨b2, List.mem_cons_of_mem _ hb2, hsid, hdyn, hneg⟩
      · exact Or.inr hfl

/-- Whether the hit-test loop treats body `b` as a match at the queried
point: it is dynamic and its point query returns a strictly negative signed
distance. -/
def hitPred (q : ℕ → Except QErr ℚ) (b : MBody) : Bool :=
  (b.btype == BodyType.dynamic) &&
    (match q b.shapeId with
     | Except.ok d => decide (d < 0)
     | Except.error _ => false)

/-- The shape handle of the last match of the hit-test loop in iteration
order, starting from accumulator `acc`. -/
def lastMatch (q : ℕ → Except QErr ℚ) : List MBody → Option ℕ → Option ℕ
  | [], acc => acc
  | b :: rest, acc =>
    lastMatch q rest (if hitPred q b then some b.shapeId else acc)

theorem hitLoop_lastMatch (q : ℕ → Except QErr ℚ) (angleOf : V2 → ℚ)
    (p : V2) (bodies : List MBody) :
    ∀ fl : HitFlags,
      (hitLoop q angleOf p bodies fl).2.2 = none →
      (hitLoop q angleOf p bodies fl).1.activeShape
        = lastMatch q bodies fl.activeShape := by
  induction bodies with
  | nil => intro fl _; rfl
  | cons b rest ih =>
    intro fl herr
    rw [hitLoop] at herr ⊢
    rw [lastMatch]
    by_cases hb : b.btype = BodyType.dynamic
    · simp only [hb, if_true] at herr ⊢
      cases hq : q b.shapeId with
      | error e =>
        rw [hq] at herr
        simp at herr
      | ok dist =>
        rw [hq] at herr
        simp only at herr ⊢
        by_cases hd : dist < 0
        · simp only [hd, if_true] at herr ⊢
          have hpred : hitPred q b = true := by
            simp [hitPred, hb, hq, hd]
          rw [hpred]
          simp only [if_true]
          exact ih _ herr
        · simp only [hd, if_false] at herr ⊢
          have hpred : hitPred q b = false := by
            simp [hitPred, hq, hd]
          rw [hpred]
          simp only [Bool.false_eq_true, if_false]
          exact ih _ herr
    · simp only [hb, if_false] at herr ⊢
      have hpred : hitPred q b = false := by
        simp [hitPred, hb]
      rw [hpred]
      simp only [Bool.false_eq_true, if_false]
      exact ih _ herr

theorem hitLoop_guard (q : ℕ → Except QErr ℚ) (angleOf : V2 → ℚ)
    (p : V2) (bodies : List MBody) :
    ∀ fl : HitFlags, fl.duringQuery = false →
      ((hitLoop q angleOf p bodies fl).1.duringQuery = true
        ↔ (hitLoop q angleOf p bodies fl).2.2.isSome = true) := by
  induction bodies with
  | nil =>
    intro fl hfl
    rw [hitLoop]
    simp [hfl]
  | cons b rest ih =>
    intro fl hfl
    rw [hitLoop]
    by_cases hb : b.btype = BodyType.dynamic
    · simp only [hb, if_true]
      cases hq : q b.shapeId with
      | error e => simp
      | ok dist =>
        simp only
        by_cases hd : dist < 0
        · simp only [hd, if_true]
          exact ih _ rfl
        · simp only [hd, if_false]
          exact ih _ rfl
    · simp only [hb, if_false]
      exact ih _ hfl

/-- Errors escaping an event-handler branch: `AttributeError` from
dereferencing `self.__active_shape.body` when `__active_shape` is `None`
(line 337), or a propagating point-query error. -/
inductive StepErr
  | attributeError
  | queryError (e : QErr)
deriving DecidableEq

/-- The `MOUSEBUTTONUP` branch of `mainloop` (lines 327-342): if
`__pulling`, set `__pulling = False`, take `active_body =
self.__active_shape.body` (an `AttributeError` when the selection is `None`),
and apply `impulse = self.__impulse * (point1 - point2).rotated(-angle)` at
the body's local origin, recorded here on the engine boundary as an
`appliedImpulses` entry.  The selection itself is left untouched.  (In
Python the shape object holds a direct reference to its body; here the body
is looked up in the space by its shape handle, which agrees in every state
this model reaches, because the only body removal — Backspace — also clears
the selection.) -/
def mouseUpHandler (ctx : Ctx) (eventPos : V2) (st : FrameState) :
    Except StepErr FrameState :=
  if st.pulling then
    let st1 : FrameState := { st with pulling := false }
    match st.activeShape with
    | none => Except.error StepErr.attributeError
    | some sid =>
      match st1.bodies.find? (fun b => b.shapeId == sid) with
      | none => Except.ok st1
      | some activeBody =>
        let cs := ctx.cosSin (-activeBody.angle)
        let impulse :=
          mouseUpImpulse ctx.camOffset eventPos activeBody.position cs.1 cs.2
        Except.ok { st1 with
          appliedImpulses := st1.appliedImpulses ++ [(sid, impulse)] }
  else Except.ok st

/-- `ProjectileMain.__create_projectile` (lines 269-280): ignored while any
entry is busy; otherwise creates `Projectile(from_pygame(mouse - offsets),
radius=20)` — a fresh dynamic body with one shape (the `Projectile` class
lives outside this file's scope) — and adds it to the space. -/
def createProjectile (ctx : Ctx) (st : FrameState) : FrameState :=
  if st.entriesBusy then st
  else
    { st with
        bodies := st.bodies ++
          [⟨st.nextShapeId, BodyType.dynamic,
            fromPygame (ctx.mousePos - ctx.camOffset), 0⟩],
        nextShapeId := st.nextShapeId + 1 }

/-- The events dispatched by the inner loop of `mainloop` (lines 292-342).
`QUIT` and `ESCAPE` terminate the loop and are not modelled. -/
inductive PEvent
  | keyC
  | keyBackspace
  | mouseDownAt (pos : V2)
  | mouseMotion (pos : V2)
  | mouseUpAt (pos : V2)

/-- One iteration of the per-event dispatch of `mainloop` (lines 292-342):
`K_c` creates a projectile; `K_BACKSPACE` with a selection removes the
selected shape and its body from the space and clears the selection
(`__pulling` is left untouched); `MOUSEBUTTONDOWN` runs the hit test
(a raised query error propagates); `MOUSEMOTION` records the pointer;
`MOUSEBUTTONUP` runs the launch handler. -/
def processEvent (ctx : Ctx) (ev : PEvent) (st : FrameState) :
    Except StepErr FrameState :=
  match ev with
  | PEvent.keyC => Except.ok (createProjectile ctx st)
  | PEvent.keyBackspace =>
    match st.activeShape with
    | none => Except.ok st
    | some sid =>
      Except.ok { st with
        bodies := st.bodies.eraseP (fun b => b.shapeId == sid),
        activeShape := none }
  | PEvent.mouseDownAt pos =>
    let r := mouseDown ctx pos st
    match r.2 with
    | some e => Except.error (StepErr.queryError e)
    | none => Except.ok r.1
  | PEvent.mouseMotion pos => Except.ok { st with mPosition := pos }
  | PEvent.mouseUpAt pos => mouseUpHandler ctx pos st

/-- The events of one frame, drained in arrival order; a raised error aborts
the loop (and the program), as in Python. -/
def processEvents (ctx : Ctx) :
    List PEvent → FrameState → Except StepErr FrameState
  | [], st => Except.ok st
  | e :: rest, st =>
    match processEvent ctx e st with
    | Except.error err => Except.error err
    | Except.ok st1 => processEvents ctx rest st1

/-- `ProjectileMain.__handle_camera_movement` (lines 256-267): if any entry
reports busy status, return immediately without touching the camera or the
drawing transform; otherwise run the camera update and install the composed
transform.  The `Camera` class and the transform composition live outside
this file's scope and are abstracted as `camUpdate`. -/
def handleCameraMovement {Cam Trans Keys : Type} (entryStatuses : List Bool)
    (camUpdate : Cam → Keys → Cam × Trans) (cam : Cam) (trans : Trans)
    (keys : Keys) : Cam × Trans :=
  if entryStatuses.any id then (cam, trans) else camUpdate cam keys

/-- A concrete external context: camera at the origin, every point query
reporting signed distance `-25` (as for `Projectile((100, 100), 25)` queried
at its center), trivial aim angle and rotation, mouse at the origin. -/
def ctxA : Ctx where
  camOffset := (0, 0)
  query := fun _ _ => Except.ok (-25)
  angleOf := fun _ => 0
  cosSin := fun _ => (1, 0)
  mousePos := (0, 0)

/-- A context whose point queries raise. -/
def ctxErr : Ctx where
  camOffset := (0, 0)
  query := fun _ _ => Except.error QErr.queryFailure
  angleOf := fun _ => 0
  cosSin := fun _ => (1, 0)
  mousePos := (0, 0)

/-- The initial `Projectile((100, 100), 25)` body (line 93). -/
def body1 : MBody where
  shapeId := 1
  btype := BodyType.dynamic
  position := (100, 100)
  angle := 0

/-- A second dynamic body overlapping the first. -/
def body2 : MBody where
  shapeId := 2
  btype := BodyType.dynamic
  position := (100, 100)
  angle := 0

/-- A static body, as the boundary segments (lines 92, 116-117). -/
def bodyStatic : MBody where
  shapeId := 0
  btype := BodyType.static
  position := (0, 0)
  angle := 0

/-- A concrete frame state: the static boundary and the projectile in the
space, nothing selected. -/
def st1 : FrameState where
  activeShape := none
  pulling := false
  duringQuery := false
  bodies := [bodyStatic, body1]
  mPosition := (0, 0)
  entriesBusy := false
  appliedImpulses := []
  nextShapeId := 2

/-- `st1` with a second, overlapping dynamic body. -/
def st2 : FrameState := { st1 with bodies := [bodyStatic, body1, body2] }

/-- `st1` mid-drag: the projectile is selected and being pulled. -/
def stPull : FrameState := { st1 with activeShape := some 1, pulling := true }

/-- C5: a shape selected by the pointer-down hit test always belongs to a
dynamic body of the space — a static body is never selected — and a dynamic
body is selected only when the point query against its shape returns a
strictly negative signed distance. -/
theorem c5_selected_dynamic_strictly_inside (ctx : Ctx) (mousePos : V2)
    (st : FrameState) (sid : ℕ)
    (h : (mouseDown ctx mousePos st).1.activeShape = some sid) :
    ∃ b ∈ st.bodies, b.shapeId = sid ∧ b.btype = BodyType.dynamic ∧
      ∃ d, ctx.query b.shapeId (fromPygame (mousePos - ctx.camOffset))
            = Except.ok d ∧ d < 0 := by
  have h2 : (hitLoop
      (fun sid2 => ctx.query sid2 (fromPygame (mousePos - ctx.camOffset)))
      ctx.angleOf (fromPygame (mousePos - ctx.camOffset)) st.bodies
      ⟨st.duringQuery, none, st.pulling⟩).1.activeShape = some sid := h
  rcases hitLoop_active_source _ _ _ _ _ sid h2 with hsrc | hnone
  · exact hsrc
  · exact absurd hnone (by simp)

/-- C5 (witness): in the concrete state `st1` the hit test at `(100, 100)`
selects shape `1`, and the theorem produces its dynamic source body. -/
theorem c5_witness :
    ∃ b ∈ st1.bodies, b.shapeId = 1 ∧ b.btype = BodyType.dynamic ∧
      ∃ d, ctxA.query b.shapeId (fromPygame ((100, 100) - ctxA.camOffset))
            = Except.ok d ∧ d < 0 :=
  c5_selected_dynamic_strictly_inside ctxA (100, 100) st1 1 (by
    norm_num [mouseDown, hitLoop, ctxA, st1, body1, bodyStatic])

/-- C6 (amended): when no point query raises, the shape selected by the
pointer-down hit test is the LAST dynamic body in iteration order whose
query reports the point strictly inside — the loop has no `break`, so a
later match overwrites an earlier one (last-match-wins, not
first-match-wins). -/
theorem c6_last_match_wins (ctx : Ctx) (mousePos : V2) (st : FrameState)
    (h : (mouseDown ctx mousePos st).2 = none) :
    (mouseDown ctx mousePos st).1.activeShape
      = lastMatch
          (fun sid => ctx.query sid (fromPygame (mousePos - ctx.camOffset)))
          st.bodies none := by
  have h2 : (hitLoop
      (fun sid2 => ctx.query sid2 (fromPygame (mousePos - ctx.camOffset)))
      ctx.angleOf (fromPygame (mousePos - ctx.camOffset)) st.bodies
      ⟨st.duringQuery, none, st.pulling⟩).2.2 = none := h
  exact hitLoop_lastMatch _ _ _ _ _ h2

/-- C6 (witness): with two overlapping dynamic bodies (shapes `1` then `2`
in iteration order) the selection equals the last match. -/
theorem c6_witness :
    (mouseDown ctxA (100, 100) st2).1.activeShape
      = lastMatch
          (fun sid => ctxA.query sid (fromPygame ((100, 100) - ctxA.camOffset)))
          st2.bodies none :=
  c6_last_match_wins ctxA (100, 100) st2 (by
    norm_num [mouseDown, hitLoop, ctxA, st2, st1, body1, body2, bodyStatic])

/-- C6 (counterexample): both dynamic bodies contain the point (their
queries return `-25 < 0`), the first in iteration order carries shape `1`,
yet the hit test selects shape `2` — the first-match-wins claim is false. -/
theorem c6_counterexample :
    (mouseDown ctxA (100, 100) st2).1.activeShape = some 2 ∧
    st2.bodies = [bodyStatic, body1, body2] ∧
    body1.shapeId = 1 ∧ body2.shapeId = 2 ∧
    hitPred (fun sid => ctxA.query sid (fromPygame ((100, 100) - ctxA.camOffset)))
        body1 = true ∧
    (some 2 : Option ℕ) ≠ some 1 := by
  refine ⟨?_, rfl, rfl, rfl, ?_, by simp⟩
  · norm_num [mouseDown, hitLoop, ctxA, st2, st1, body1, body2, bodyStatic]
  · norm_num [hitPred, ctxA, body1]

/-- C4 (amended): starting a pointer-down with the query guard clear, the
guard is raised around each point query and lowered after each query that
returns normally; after the hit test the guard is still raised exactly when
a point query raised an error — in the error case the exception propagates
and the guard is left `True` (there is no `try/finally`), contrary to the
claim's "never left true after the query throws". -/
theorem c4_guard_left_true_iff_error (ctx : Ctx) (mousePos : V2)
    (st : FrameState) (h : st.duringQuery = false) :
    ((mouseDown ctx mousePos st).1.duringQuery = true
      ↔ (mouseDown ctx mousePos st).2.isSome = true) :=
  hitLoop_guard _ _ _ _ ⟨st.duringQuery, none, st.pulling⟩ h

/-- C4 (witness): at the concrete state `st1` (guard clear, queries
succeed) the equivalence holds. -/
theorem c4_witness :
    ((mouseDown ctxA (100, 100) st1).1.duringQuery = true
      ↔ (mouseDown ctxA (100, 100) st1).2.isSome = true) :=
  c4_guard_left_true_iff_error ctxA (100, 100) st1 rfl

/-- C4 (counterexample): when the point query on the projectile raises, the
error propagates out of the hit test and the query guard is left `True` —
the claimed guaranteed release discipline does not hold on the erroring
path. -/
theorem c4_counterexample :
    (mouseDown ctxErr (100, 100) st1).2 = some QErr.queryFailure ∧
    (mouseDown ctxErr (100, 100) st1).1.duringQuery = true := by
  constructor <;>
    norm_num [mouseDown, hitLoop, ctxErr, st1, body1, bodyStatic]

/-- C7 (amended): on a pointer-up that ends an aiming drag the handler
computes the launch impulse, applies it to the active shape's body, and
clears the pulling flag — but it does NOT clear the active-shape selection:
the selection persists after the launch (it is cleared only by a later
pointer-down or by the Backspace delete). -/
theorem c7_mouseup_keeps_selection (ctx : Ctx) (eventPos : V2)
    (st : FrameState) (sid : ℕ) (b : MBody)
    (hp : st.pulling = true) (ha : st.activeShape = some sid)
    (hb : st.bodies.find? (fun x => x.shapeId == sid) = some b) :
    mouseUpHandler ctx eventPos st = Except.ok { st with
      pulling := false,
      appliedImpulses := st.appliedImpulses ++
        [(sid, mouseUpImpulse ctx.camOffset eventPos b.position
            (ctx.cosSin (-b.angle)).1 (ctx.cosSin (-b.angle)).2)] } := by
  simp only [mouseUpHandler, hp, if_true, ha, hb]

/-- C7 (witness): in the mid-drag state `stPull` the pointer-up applies the
impulse to the projectile and keeps the selection. -/
theorem c7_witness :
    mouseUpHandler ctxA (100, 100) stPull = Except.ok { stPull with
      pulling := false,
      appliedImpulses := stPull.appliedImpulses ++
        [(1, mouseUpImpulse ctxA.camOffset (100, 100) body1.position
            (ctxA.cosSin (-body1.angle)).1 (ctxA.cosSin (-body1.angle)).2)] } :=
  c7_mouseup_keeps_selection ctxA (100, 100) stPull 1 body1 rfl rfl rfl

/-- C7 (counterexample): after the pointer-up in the mid-drag state
`stPull`, the pulling flag is cleared but the active-shape selection is
still `some 1` — not `none` as the claim's "no selected body" requires. -/
theorem c7_counterexample :
    (mouseUpHandler ctxA (100, 100) stPull).map FrameState.activeShape
        = Except.ok (some 1) ∧
    (mouseUpHandler ctxA (100, 100) stPull).map FrameState.pulling
        = Except.ok false := by
  constructor <;> rfl

/-- C9 (amended): while any entry reports busy status the camera handler
returns immediately — the camera state and the drawing transform are
unchanged — and the projectile-creation key is likewise ignored; but the
pointer-down branch never consults the busy flag: its outcome is the same
function of the remaining state whether or not a field is busy, so a
pointer-down while typing can still select a body and start a drag. -/
theorem c9_busy_input_handling :
    (∀ (Cam Trans Keys : Type) (statuses : List Bool)
        (camUpdate : Cam → Keys → Cam × Trans) (cam : Cam) (trans : Trans)
        (keys : Keys), statuses.any id = true →
        handleCameraMovement statuses camUpdate cam trans keys = (cam, trans)) ∧
    (∀ (ctx : Ctx) (st : FrameState), st.entriesBusy = true →
        createProjectile ctx st = st) ∧
    (∀ (ctx : Ctx) (pos : V2) (st : FrameState) (busy : Bool),
        mouseDown ctx pos { st with entriesBusy := busy }
          = ({ (mouseDown ctx pos st).1 with entriesBusy := busy },
              (mouseDown ctx pos st).2)) := by
  refine ⟨?_, ?_, ?_⟩
  · intro Cam Trans Keys statuses camUpdate cam trans keys hbusy
    simp [handleCameraMovement, hbusy]
  · intro ctx st hbusy
    simp [createProjectile, hbusy]
  · intro ctx pos st busy
    rfl

/-- C9 (witness): the camera handler with a busy entry leaves a concrete
camera/transform pair untouched; creating while busy is a no-op; the hit
test at `st1` gives the same result with the busy flag set. -/
theorem c9_witness :
    handleCameraMovement [true] (fun (c : Bool) (_ : Bool) => (!c, true))
        false true true = (false, true) ∧
    createProjectile ctxA { st1 with entriesBusy := true }
        = { st1 with entriesBusy := true } ∧
    mouseDown ctxA (100, 100) { st1 with entriesBusy := true }
      = ({ (mouseDown ctxA (100, 100) st1).1 with entriesBusy := true },
          (mouseDown ctxA (100, 100) st1).2) :=
  ⟨c9_busy_input_handling.1 Bool Bool Bool [true] _ false true true rfl,
   c9_busy_input_handling.2.1 ctxA { st1 with entriesBusy := true } rfl,
   c9_busy_input_handling.2.2 ctxA (100, 100) st1 true⟩

/-- C9 (counterexample): with every entry busy, a pointer-down at
`(100, 100)` still selects the projectile's shape and starts pulling — the
drag controller consumes pointer input during text entry, so "typing into a
field never starts a drag session" fails. -/
theorem c9_counterexample :
    ({ st1 with entriesBusy := true } : FrameState).entriesBusy = true ∧
    (mouseDown ctxA (100, 100)
        { st1 with entriesBusy := true }).1.activeShape = some 1 ∧
    (mouseDown ctxA (100, 100)
        { st1 with entriesBusy := true }).1.pulling = true := by
  refine ⟨rfl, ?_, ?_⟩ <;>
    norm_num [mouseDown, hitLoop, ctxA, st1, body1, bodyStatic]

/-- C10 (code defect): the event sequence pointer-down on the projectile,
Backspace, pointer-up is reachable from the concrete start state; after the
first two events the state has `__pulling = True` and
`__active_shape = None` (Backspace clears the selection but not the pulling
flag), and the pointer-up handler then raises `AttributeError` dereferencing
`self.__active_shape.body` — the claimed invariant fails. -/
theorem c10_backspace_during_drag_crash :
    (processEvents ctxA [PEvent.mouseDownAt (100, 100), PEvent.keyBackspace]
        st1).map (fun s => (s.pulling, s.activeShape))
      = Except.ok (true, none) ∧
    processEvents ctxA [PEvent.mouseDownAt (100, 100), PEvent.keyBackspace,
        PEvent.mouseUpAt (100, 100)] st1
      = Except.error StepErr.attributeError := by
  constructor <;>
    norm_num [processEvents, processEvent, mouseDown, hitLoop, mouseUpHandler,
      createProjectile, ctxA, st1, body1, bodyStatic, Except.map]

/-- The size parameter of a `StaticObstacle`: `radius=` for circles,
`multiplier=` for every other kind (lines 203-212; the `StaticObstacle`
class lives outside this file's scope). -/
inductive SizeParam
  | radius (r : ℤ)
  | multiplier (m : ℤ)
deriving DecidableEq

/-- A tracked obstacle as `__create` builds it: name, parsed position,
selected kind, size parameter, and the handles of the body and shape
allocated for it. -/
structure SObj where
  name : String
  position : ℤ × ℤ
  kind : String
  param : SizeParam
  shapeId : ℕ
  bodyId : ℕ
deriving DecidableEq

/-- The shape and body handles currently added to the pymunk space by the
lifecycle operations. -/
structure SpaceModel where
  shapes : List ℕ
  bodies : List ℕ
deriving DecidableEq

/-- `self.__space.remove(object.shape, object.body)` (line 232). -/
def spaceErase (sp : SpaceModel) (o : SObj) : SpaceModel :=
  { shapes := sp.shapes.erase o.shapeId, bodies := sp.bodies.erase o.bodyId }

/-- The error taxonomy of the lifecycle operations (spec section 7); the
program reports these through the info label rather than raising. -/
inductive LifecycleErr
  | concurrentMutation
  | validation
  | notFound
deriving DecidableEq

/-- The instance state read and written by `__create` and `__remove`. -/
structure AppState where
  readyToStep : Bool
  duringQuery : Bool
  showInfo : Bool
  labelInfo : String
  entryName : String
  entryMultiplier : String
  entryPosX : String
  entryPosY : String
  selectedObject : String
  objects : List SObj
  space : SpaceModel
  nextId : ℕ
deriving DecidableEq

/-- `ProjectileMain.__create` (lines 194-216).  `toInt` stands for the
widget toolkit's `Entry.get(as_type=int)` (outside this file's scope);
`bool(entry.get(False))` is emptiness of the entry's text.  The engine's
allocation of a fresh body and shape object is modelled by the `nextId`
counter.  The reported info-label messages are mapped to the spec's error
taxonomy: the guard branch is `ConcurrentMutationError`, the missing-field
branch `ValidationError`. -/
def createOp (toInt : String → ℤ) (shape : String) (st : AppState) :
    AppState × Option LifecycleErr :=
  if st.readyToStep || st.duringQuery then
    ({ st with
        showInfo := true,
        labelInfo := "Can not create object during space step or query" },
      some LifecycleErr.concurrentMutation)
  else
    if [st.entryName, st.entryMultiplier, st.entryPosX, st.entryPosY].any
        String.isEmpty then
      ({ st with showInfo := true, labelInfo := "Please fill all the fields" },
        some LifecycleErr.validation)
    else
      let tmpObject : SObj :=
        { name := st.entryName,
          position := (toInt st.entryPosX, toInt st.entryPosY),
          kind := shape,
          param := if st.selectedObject = "Circle" then
              SizeParam.radius (toInt st.entryMultiplier)
            else SizeParam.multiplier (toInt st.entryMultiplier),
          shapeId := st.nextId,
          bodyId := st.nextId + 1 }
      ({ st with
          objects := st.objects ++ [tmpObject],
          showInfo := false,
          labelInfo := "",
          space := { shapes := st.space.shapes ++ [tmpObject.shapeId],
                     bodies := st.space.bodies ++ [tmpObject.bodyId] },
          nextId := st.nextId + 2 }, none)

/-- The `for object in self.__objects` removal loop of `__remove`
(lines 230-233): on a match, `space.remove(shape, body)` and
`objects.remove(object)` run, and because the list shrinks under the live
iterator while its index still advances, the element immediately after a
removed one is skipped (CPython list-iterator semantics). -/
def removeGo (removeName : String) :
    List SObj → SpaceModel → List SObj × SpaceModel
  | [], sp => ([], sp)
  | o :: rest, sp =>
    if o.name = removeName then
      match rest with
      | [] => ([], spaceErase sp o)
      | r :: rest2 =>
        let p := removeGo removeName rest2 (spaceErase sp o)
        (r :: p.1, p.2)
    else
      let p := removeGo removeName rest sp
      (o :: p.1, p.2)

/-- `ProjectileMain.__remove` (lines 218-233): guarded by the step/query
flags, then by emptiness of the name field; otherwise clears the info label
and removes every matching tracked object (with the iterator quirk of
`removeGo`).  No branch reports a missing name. -/
def removeOp (st : AppState) : AppState × Option LifecycleErr :=
  if st.readyToStep || st.duringQuery then
    ({ st with
        showInfo := true,
        labelInfo := "Can not remove object during space step or query" },
      some LifecycleErr.concurrentMutation)
  else
    if st.entryName.isEmpty then
      ({ st with
          showInfo := true,
          labelInfo := "Please fill \"name\" field" },
        some LifecycleErr.validation)
    else
      let r := removeGo st.entryName st.objects st.space
      ({ st with
          showInfo := false,
          labelInfo := "",
          objects := r.1,
          space := r.2 }, none)

theorem removeGo_no_match (removeName : String) :
    ∀ (l : List SObj) (sp : SpaceModel),
      (∀ o ∈ l, o.name ≠ removeName) → removeGo removeName l sp = (l, sp) := by
  intro l
  induction l with
  | nil => intro sp _; rfl
  | cons o rest ih =>
    intro sp hnm
    have ho : ¬ (o.name = removeName) := hnm o (List.mem_cons_self _ _)
    rw [removeGo.eq_def]
    dsimp only
    rw [if_neg ho, ih sp (fun x hx => hnm x (List.mem_cons_of_mem _ hx))]

theorem removeGo_unique (removeName : String) :
    ∀ (pre : List SObj) (o : SObj) (post : List SObj) (sp : SpaceModel),
      o.name = removeName →
      (∀ x ∈ pre, x.name ≠ removeName) →
      (∀ x ∈ post, x.name ≠ removeName) →
      removeGo removeName (pre ++ o :: post) sp
        = (pre ++ post, spaceErase sp o) := by
  intro pre
  induction pre with
  | nil =>
    intro o post sp ho hpre hpost
    simp only [List.nil_append]
    rw [removeGo.eq_def]
    dsimp only
    rw [if_pos ho]
    cases post with
    | nil => rfl
    | cons r rest2 =>
      dsimp only
      rw [removeGo_no_match removeName rest2 (spaceErase sp o)
        (fun x hx => hpost x (List.mem_cons_of_mem _ hx))]
  | cons pHead pre2 ih =>
    intro o post sp ho hpre hpost
    simp only [List.cons_append]
    rw [removeGo.eq_def]
    dsimp only
    rw [if_neg (hpre pHead (List.mem_cons_self _ _)),
      ih o post sp ho (fun x hx => hpre x (List.mem_cons_of_mem _ hx)) hpost]

/-- C3: while the step guard or the query guard is raised, both `create` and
`remove` fail with the concurrent-mutation report, the tracked-object list
is unchanged, and no body or shape is added to or removed from the space. -/
theorem c3_lifecycle_guard_blocks (toInt : String → ℤ) (shape : String)
    (st : AppState) (h : st.readyToStep = true ∨ st.duringQuery = true) :
    (createOp toInt shape st).2 = some LifecycleErr.concurrentMutation ∧
    (createOp toInt shape st).1.objects = st.objects ∧
    (createOp toInt shape st).1.space = st.space ∧
    (removeOp st).2 = some LifecycleErr.concurrentMutation ∧
    (removeOp st).1.objects = st.objects ∧
    (removeOp st).1.space = st.space := by
  have hguard : (st.readyToStep || st.duringQuery) = true := by
    rcases h with h | h <;> simp [h]
  refine ⟨?_, ?_, ?_, ?_, ?_, ?_⟩ <;> simp [createOp, removeOp, hguard]

/-- A concrete lifecycle state with the step guard raised and every entry
filled. -/
def stGuard : AppState where
  readyToStep := true
  duringQuery := false
  showInfo := false
  labelInfo := ""
  entryName := "A"
  entryMultiplier := "10"
  entryPosX := "50"
  entryPosY := "50"
  selectedObject := "Circle"
  objects := []
  space := { shapes := [], bodies := [] }
  nextId := 0

/-- C3 (witness): at `stGuard` (step guard raised) both operations fail and
leave the list and the space untouched. -/
theorem c3_witness :
    (createOp (fun _ => 0) "Circle" stGuard).2
        = some LifecycleErr.concurrentMutation ∧
    (createOp (fun _ => 0) "Circle" stGuard).1.objects = stGuard.objects ∧
    (createOp (fun _ => 0) "Circle" stGuard).1.space = stGuard.space ∧
    (removeOp stGuard).2 = some LifecycleErr.concurrentMutation ∧
    (removeOp stGuard).1.objects = stGuard.objects ∧
    (removeOp stGuard).1.space = stGuard.space :=
  c3_lifecycle_guard_blocks (fun _ => 0) "Circle" stGuard (Or.inl rfl)

/-- C8 (amended): with the guards clear and the name field filled, removing
a name matched by no tracked object is a silent no-op — the operation
reports no error (there is no `NotFoundError` path in the code) and the
tracked list and the space are unchanged, so removing an already-removed
name silently does nothing; removing a name carried by exactly one tracked
object detaches that object's shape and body from the space and drops it
from the tracked list. -/
theorem c8_remove_absent_is_silent_noop (st : AppState)
    (hr : st.readyToStep = false) (hq : st.duringQuery = false)
    (hn : st.entryName.isEmpty = false) :
    ((∀ o ∈ st.objects, o.name ≠ st.entryName) →
      removeOp st = ({ st with showInfo := false, labelInfo := "" }, none)) ∧
    (∀ (pre : List SObj) (o : SObj) (post : List SObj),
      st.objects = pre ++ o :: post → o.name = st.entryName →
      (∀ x ∈ pre, x.name ≠ st.entryName) →
      (∀ x ∈ post, x.name ≠ st.entryName) →
      removeOp st = ({ st with
          showInfo := false,
          labelInfo := "",
          objects := pre ++ post,
          space := spaceErase st.space o }, none)) := by
  have hguard : (st.readyToStep || st.duringQuery) = false := by
    simp [hr, hq]
  constructor
  · intro hno
    simp only [removeOp, hguard, Bool.false_eq_true, if_false, hn,
      removeGo_no_match st.entryName st.objects st.space hno]
  · intro pre o post hobj ho hpre hpost
    simp only [removeOp, hguard, Bool.false_eq_true, if_false, hn, hobj,
      removeGo_unique st.entryName pre o post st.space ho hpre hpost]

/-- The tracked object of the spec's name-uniqueness scenario: `"A"` at
`(50, 50)`, circle of radius `10`. -/
def objA : SObj where
  name := "A"
  position := (50, 50)
  kind := "Circle"
  param := SizeParam.radius 10
  shapeId := 7
  bodyId := 8

/-- A lifecycle state tracking exactly `objA`, guards clear, name field
`"A"`. -/
def stRemove : AppState where
  readyToStep := false
  duringQuery := false
  showInfo := false
  labelInfo := ""
  entryName := "A"
  entryMultiplier := "10"
  entryPosX := "50"
  entryPosY := "50"
  selectedObject := "Circle"
  objects := [objA]
  space := { shapes := [7], bodies := [8] }
  nextId := 9

/-- C8 (witness): removing `"A"` from `stRemove` succeeds, dropping `objA`
from the tracked list and its shape and body from the space. -/
theorem c8_witness :
    removeOp stRemove = ({ stRemove with
        showInfo := false,
        labelInfo := "",
        objects := ([] : List SObj) ++ [],
        space := spaceErase stRemove.space objA }, none) :=
  (c8_remove_absent_is_silent_noop stRemove rfl rfl rfl).2 [] objA [] rfl rfl
    (by simp) (by simp)

/-- `stRemove` after the successful removal: nothing tracked, name field
still `"A"`. -/
def stEmpty : AppState :=
  { stRemove with objects := [], space := { shapes := [], bodies := [] } }

/-- C8 (counterexample): removing `"A"` when nothing matches — e.g. right
after it was already removed — reports NO error at all (in particular not
`NotFoundError`) and changes nothing: the claim that `remove` fails with
`NotFoundError` whenever no tracked object matches is false. -/
theorem c8_counterexample :
    (removeOp stEmpty).2 = none ∧
    ¬ ((removeOp stEmpty).2 = some LifecycleErr.notFound) ∧
    (removeOp stEmpty).1.objects = stEmpty.objects ∧
    (removeOp stEmpty).1.space = stEmpty.space := by
  refine ⟨?_, ?_, ?_, ?_⟩ <;> decide
